import Mathlib

/-!
Shallow embedding of the orchestration core of an XMPP client
(`src/core.rs` of linkmauve/aparte), together with theorems checking the
natural-language specification against the code.

External collaborators (the `xmpp_parsers`, `uuid` and `futures` crates)
are modelled only at their boundary with the core: JIDs are opaque
identity-carrying values, a protocol element is the record the core
builds, a UUID is sixteen bytes rendered in the standard hyphenated hex
form, and an unbounded channel is a queue with a closed flag.

Environment effects that the Rust code obtains implicitly (entropy for
`Uuid::new_v4`, the clock for `Utc::now`) are passed as explicit
arguments; panics (`unwrap` on `None` or on a failed downcast) are
modelled as a distinguished result constructor.
-/

namespace Aparte

/-- An account identity without a resource qualifier (`xmpp_parsers::BareJid`,
opaque at this boundary). -/
structure BareJid where
  repr : String
deriving DecidableEq

/-- An account identity with a resource qualifier (`xmpp_parsers::FullJid`,
opaque at this boundary). -/
structure FullJid where
  repr : String
deriving DecidableEq

/-- `xmpp_parsers::Jid`: either bare or full. -/
inductive Jid where
  | bare (j : BareJid)
  | full (j : FullJid)
deriving DecidableEq

/-- `DateTime<Utc>`, opaque at this boundary. -/
abbrev Timestamp := Nat

/-- `struct ChatMessage` from `core.rs`. -/
structure ChatMessage where
  id : String
  timestamp : Timestamp
  from_ : BareJid
  from_full : Jid
  to_ : BareJid
  to_full : Jid
  body : String
deriving DecidableEq

/-- `struct GroupchatMessage` from `core.rs`. -/
structure GroupchatMessage where
  id : String
  timestamp : Timestamp
  from_ : BareJid
  from_full : Jid
  to_ : BareJid
  to_full : Jid
  body : String
deriving DecidableEq

/-- `enum XmppMessage` from `core.rs`. -/
inductive XmppMessage where
  | Chat (m : ChatMessage)
  | Groupchat (m : GroupchatMessage)
deriving DecidableEq

/-- `struct LogMessage` from `core.rs`. -/
structure LogMessage where
  id : String
  timestamp : Timestamp
  body : String
deriving DecidableEq

/-- `enum Message` from `core.rs`. -/
inductive Message where
  | Incoming (m : XmppMessage)
  | Outgoing (m : XmppMessage)
  | Log (m : LogMessage)
deriving DecidableEq

/-- `impl PartialEq for Message` (`core.rs:182-202`): extract each side's
inner identifier by the same match as the source and compare the strings. -/
def Message.eq (a b : Message) : Bool :=
  let my_id := match a with
    | .Log message => message.id
    | .Incoming (.Chat message) | .Outgoing (.Chat message) => message.id
    | .Incoming (.Groupchat message) | .Outgoing (.Groupchat message) => message.id
  let other_id := match b with
    | .Log message => message.id
    | .Incoming (.Chat message) | .Outgoing (.Chat message) => message.id
    | .Incoming (.Groupchat message) | .Outgoing (.Groupchat message) => message.id
  my_id == other_id

/-- The identifier string of a message's inner payload (the value both
`PartialEq` and `Hash` for `Message` are keyed on). -/
def Message.idOf : Message → String
  | .Log message => message.id
  | .Incoming (.Chat message) | .Outgoing (.Chat message) => message.id
  | .Incoming (.Groupchat message) | .Outgoing (.Groupchat message) => message.id

/-- `Message::body` (`core.rs:159-167`). -/
def Message.body : Message → String
  | .Outgoing (.Chat m) | .Incoming (.Chat m) => m.body
  | .Outgoing (.Groupchat m) | .Incoming (.Groupchat m) => m.body
  | .Log m => m.body

/-- `xmpp_parsers::message::MessageType`. -/
inductive MessageType where
  | Chat
  | Error
  | Groupchat
  | Headline
  | Normal
deriving DecidableEq

/-- The slice of `xmpp_parsers::message::Message` the core builds: sender,
recipient, identifier, type marker, and the language-keyed body map. -/
structure XmppParsersMessage where
  from_ : Option Jid
  to_ : Option Jid
  id : Option String
  type_ : MessageType
  bodies : List (String × String)
deriving DecidableEq

/-- `xmpp_parsers::message::Message::new(to)`: no sender, no id, `Normal`
type, empty body map. -/
def XmppParsersMessage.new (t : Option Jid) : XmppParsersMessage :=
  { from_ := none, to_ := t, id := none, type_ := .Normal, bodies := [] }

/-- Map insertion with replacement (a `BTreeMap`/`HashMap` `insert`),
observed through first-match lookup. -/
def mapInsert {α : Type} (m : List (String × α)) (k : String) (v : α) :
    List (String × α) :=
  (k, v) :: m.filter (fun kv => kv.1 ≠ k)

/-- A protocol element handed to the transport; the core only ever builds
one from a message record (`xmpp_message.into()`). -/
abbrev Element := XmppParsersMessage

/-- `impl TryFrom<Message> for Element` (`core.rs:210-237`). -/
def Message.tryIntoElement : Message → Except Unit Element
  | .Log _ => .error ()
  | .Incoming _ => .error ()
  | .Outgoing (.Chat message) =>
      let m0 := XmppParsersMessage.new (some (.bare message.to_))
      let m1 := { m0 with id := some message.id }
      let m2 := { m1 with type_ := .Chat }
      let m3 := { m2 with bodies := mapInsert m2.bodies "" message.body }
      .ok m3
  | .Outgoing (.Groupchat message) =>
      let m0 := XmppParsersMessage.new (some (.bare message.to_))
      let m1 := { m0 with id := some message.id }
      let m2 := { m1 with type_ := .Groupchat }
      let m3 := { m2 with bodies := mapInsert m2.bodies "" message.body }
      .ok m3

end Aparte

namespace Aparte

/-- Claim C1: two `Message` values compare equal exactly when their inner
identifier strings are equal, regardless of variant, body, timestamp or
addresses. -/
theorem message_eq_iff_id_eq (a b : Message) :
    Message.eq a b = true ↔ Message.idOf a = Message.idOf b := by
  have h : Message.eq a b = (Message.idOf a == Message.idOf b) := by
    rcases a with x | x | x <;> rcases b with y | y | y <;> rfl
  rw [h]
  exact beq_iff_eq

/-- Claim C2: converting a `Log` or an `Incoming` message to a protocol
element always fails; whenever conversion does not fail the message was an
`Outgoing` one. -/
theorem tryIntoElement_log_incoming_fail (lm : LogMessage) (xm : XmppMessage)
    (m : Message) :
    Message.tryIntoElement (.Log lm) = .error () ∧
    Message.tryIntoElement (.Incoming xm) = .error () ∧
    (Message.tryIntoElement m ≠ .error () → ∃ x, m = .Outgoing x) := by
  refine ⟨rfl, rfl, ?_⟩
  intro h
  rcases m with x | x | x
  · exact absurd rfl h
  · exact ⟨x, rfl⟩
  · exact absurd rfl h

/-- Witness for C2 at a concrete outgoing chat message. -/
theorem tryIntoElement_log_incoming_fail_witness :
    ∃ x, Message.Outgoing (.Chat ⟨"i", (0 : Nat), ⟨"a"⟩, .bare ⟨"a"⟩, ⟨"b"⟩,
        .bare ⟨"b"⟩, "hello"⟩) = Message.Outgoing x :=
  (tryIntoElement_log_incoming_fail ⟨"l", (0 : Nat), "x"⟩
    (.Chat ⟨"i", (0 : Nat), ⟨"a"⟩, .bare ⟨"a"⟩, ⟨"b"⟩, .bare ⟨"b"⟩, "hello"⟩)
    (Message.Outgoing (.Chat ⟨"i", (0 : Nat), ⟨"a"⟩, .bare ⟨"a"⟩, ⟨"b"⟩,
        .bare ⟨"b"⟩, "hello"⟩))).2.2 (by intro h; exact Except.noConfusion h)

/-- Claim C3: converting an outgoing chat message succeeds and yields an
element addressed to the bare recipient, carrying the message's id, the
`chat` type marker and the body under the empty language key; an outgoing
groupchat message yields the same shape with the `groupchat` marker. -/
theorem tryIntoElement_outgoing (c : ChatMessage) (g : GroupchatMessage) :
    Message.tryIntoElement (.Outgoing (.Chat c)) =
      .ok { from_ := none, to_ := some (.bare c.to_), id := some c.id,
            type_ := .Chat, bodies := [("", c.body)] } ∧
    Message.tryIntoElement (.Outgoing (.Groupchat g)) =
      .ok { from_ := none, to_ := some (.bare g.to_), id := some g.id,
            type_ := .Groupchat, bodies := [("", g.body)] } :=
  ⟨rfl, rfl⟩

end Aparte

namespace Aparte

/-- `Event` from `core.rs:266-272`. -/
inductive Event where
  | Connected (j : FullJid)
  | Disconnected (j : FullJid)
  | Message (m : Message)
  | Join (j : FullJid)

/-- A plugin instance stored behind the uniform `Box<dyn AnyPlugin>` handle:
`typeId` is the `TypeId` of its concrete Rust type, `state` its private
mutable state, and `on_event` its event handler (the `Plugin` trait method).
The orchestrator handle argument of `on_event` is elided: handlers are
opaque to this layer. -/
structure DynPlugin where
  typeId : Nat
  state : Nat
  on_event : Nat → Event → Nat

/-- One step of a plugin handling an event: its own state is replaced by
the result of `on_event`, everything else unchanged. -/
def DynPlugin.handle (p : DynPlugin) (e : Event) : DynPlugin :=
  { p with state := p.on_event p.state e }

/-- `HashMap` insertion keyed by `TypeId`, observed through first-match
lookup. -/
def pluginInsert (m : List (Nat × DynPlugin)) (k : Nat) (v : DynPlugin) :
    List (Nat × DynPlugin) :=
  (k, v) :: m.filter (fun kv => kv.1 ≠ k)

/-- First-match association-list lookup (a `HashMap::get`). -/
def mapGet {κ α : Type} [BEq κ] (m : List (κ × α)) (k : κ) : Option α :=
  match m.find? (fun kv => kv.1 == k) with
  | some kv => some kv.2
  | none => none

/-- Result of a typed plugin lookup: the kind was never registered, the
stored instance downcast to the requested type, or the fatal fault of a
failed downcast (`unwrap` panic, `core.rs:347` / `core.rs:358`). -/
inductive PluginLookup where
  | notFound
  | found (p : DynPlugin)
  | fatal

/-- Decodes a `futures::unsync::mpsc::UnboundedSender`: an unbounded queue
that fails only once the receiving side is gone. -/
structure Sink where
  closed : Bool
  queued : List Element

/-- `Packet::Stanza` is the only packet the core builds; the payload is the
element. -/
structure Packet where
  stanza : Element

/-- `Sink::start_send` on an unbounded channel: errors iff the channel is
closed, otherwise enqueues. -/
def Sink.start_send (s : Sink) (p : Packet) : Sink × Except String Unit :=
  if s.closed then (s, .error "channel closed")
  else ({ s with queued := s.queued ++ [p.stanza] }, .ok ())

/-- `struct Connection` from `core.rs:300-303`. -/
structure Connection where
  sink : Sink
  account : FullJid

/-- `FullJid::to_string()`, the key under which a connection is stored. -/
def FullJid.toStr (j : FullJid) : String := j.repr

/-- `struct Command` from `core.rs:244-248`. -/
structure Command where
  name : String
  args : List String

/-- A command handler (`fn(Rc<Aparte>, &Command) -> Result<(), ()>`); the
orchestrator handle argument is elided because handlers are opaque to the
dispatcher. -/
abbrev Handler := Command → Except Unit Unit

/-- `struct Aparte` from `core.rs:305-310`: command dispatch table, plugin
registry, connection registry and current-connection pointer. -/
structure State where
  commands : List (String × (Command → Except Unit Unit))
  plugins : List (Nat × DynPlugin)
  connections : List (String × Connection)
  current_connection : Option String

/-- `Aparte::new` (`core.rs:313-320`). -/
def State.new : State :=
  { commands := [], plugins := [], connections := [], current_connection := none }

/-- `Aparte::add_command` (`core.rs:322-324`). -/
def State.add_command (st : State) (name : String)
    (command : Command → Except Unit Unit) : State :=
  { st with commands := mapInsert st.commands name command }

/-- `Aparte::parse_command` (`core.rs:326-331`). -/
def State.parse_command (st : State) (command : Command) : Except Unit Unit :=
  match mapGet st.commands command.name with
  | some parser => parser command
  | none => .error ()

/-- `Aparte::add_plugin::<T>` (`core.rs:333-337`): insert under `T`'s type
key, returning `Ok(())`. -/
def State.add_plugin (st : State) (tid : Nat) (plugin : DynPlugin) :
    State × Except Unit Unit :=
  ({ st with plugins := pluginInsert st.plugins tid plugin }, .ok ())

/-- `Aparte::get_plugin::<T>` (`core.rs:339-348`): absent key is `None`;
present key is downcast to `T`, and a concrete type other than `T` is a
deliberate `unwrap` panic. `get_plugin_mut` (`core.rs:350-359`) is the same
lookup with a mutable borrow. -/
def State.get_plugin (st : State) (tid : Nat) : PluginLookup :=
  match mapGet st.plugins tid with
  | none => .notFound
  | some p => if p.typeId = tid then .found p else .fatal

/-- `Aparte::add_connection` (`core.rs:361-371`): store the connection
under the account's string form and point `current_connection` at it. -/
def State.add_connection (st : State) (account : FullJid) (sink : Sink) :
    State :=
  let connection : Connection := { account := account, sink := sink }
  let key := connection.account.toStr
  { st with
    connections := mapInsert st.connections key connection,
    current_connection := some key }

/-- `Aparte::current_connection` (`core.rs:373-383`): `None` when the
pointer is unset, otherwise the account of the connection the pointer names
(the source `unwrap`s the registry lookup; the panic case is modelled by
the inner `Option`). -/
def State.currentConn (st : State) : Option (Option FullJid) :=
  match st.current_connection with
  | none => some none
  | some cur =>
      match mapGet st.connections cur with
      | some connection => some (some connection.account)
      | none => none

/-- `Aparte::send` (`core.rs:395-405`): wrap the element in a packet, take
the first connection in iteration order (`unwrap` panics when the registry
is empty, modelled as `none`), `start_send` it and swallow any failure into
a warning line. -/
def State.send (st : State) (element : Element) :
    Option (State × List String) :=
  let packet : Packet := { stanza := element }
  match st.connections with
  | [] => none
  | (key, current) :: rest =>
      let (sink, res) := current.sink.start_send packet
      let warns := match res with
        | .error e => ["Cannot send packet: " ++ e]
        | .ok _ => []
      some ({ st with connections := (key, { current with sink := sink }) :: rest },
            warns)

/-- The `for` loop of `Aparte::event` (`core.rs:407-411`): each stored
plugin's `on_event` is called in turn with the event. -/
def broadcast : List (Nat × DynPlugin) → Event → List (Nat × DynPlugin)
  | [], _ => []
  | (k, plugin) :: rest, e => (k, plugin.handle e) :: broadcast rest e

/-- `Aparte::event` (`core.rs:407-411`). -/
def State.event (st : State) (e : Event) : State :=
  { st with plugins := broadcast st.plugins e }

/-- A UUID: sixteen bytes (the `uuid` crate, opaque at this boundary). -/
structure Uuid where
  b0 : Nat
  b1 : Nat
  b2 : Nat
  b3 : Nat
  b4 : Nat
  b5 : Nat
  b6 : Nat
  b7 : Nat
  b8 : Nat
  b9 : Nat
  b10 : Nat
  b11 : Nat
  b12 : Nat
  b13 : Nat
  b14 : Nat
  b15 : Nat

/-- `Uuid::new_v4` over an explicit entropy argument `r`: sixteen random
bytes with the version nibble of byte 6 forced to 4 and the variant bits of
byte 8 forced to `10`. -/
def Uuid.new_v4 (r : Uuid) : Uuid :=
  { r with b6 := 64 + r.b6 % 16, b8 := 128 + r.b8 % 64 }

/-- One lowercase hex digit. -/
def hexDigitChar (n : Nat) : Char :=
  if n < 10 then Char.ofNat (48 + n) else Char.ofNat (87 + n % 16)

/-- Two lowercase hex digits of a byte. -/
def hexPair (b : Nat) : List Char :=
  [hexDigitChar (b / 16 % 16), hexDigitChar (b % 16)]

/-- `Uuid::to_string()`: the standard hyphenated 8-4-4-4-12 form. -/
def Uuid.str (u : Uuid) : String :=
  String.mk (hexPair u.b0 ++ hexPair u.b1 ++ hexPair u.b2 ++ hexPair u.b3 ++
    [Char.ofNat 45] ++ hexPair u.b4 ++ hexPair u.b5 ++
    [Char.ofNat 45] ++ hexPair u.b6 ++ hexPair u.b7 ++
    [Char.ofNat 45] ++ hexPair u.b8 ++ hexPair u.b9 ++
    [Char.ofNat 45] ++ hexPair u.b10 ++ hexPair u.b11 ++ hexPair u.b12 ++
    hexPair u.b13 ++ hexPair u.b14 ++ hexPair u.b15)

/-- `Message::log` (`core.rs:150-156`), with the entropy and the clock
passed explicitly. -/
def Message.mkLog (r : Uuid) (now : Timestamp) (msg : String) : Message :=
  .Log { id := (Uuid.new_v4 r).str, timestamp := now, body := msg }

/-- `Aparte::log` (`core.rs:413-416`): synthesize the log message and
broadcast it as an ordinary event. -/
def State.log (st : State) (r : Uuid) (now : Timestamp) (message : String) :
    State :=
  st.event (.Message (Message.mkLog r now message))

end Aparte

namespace Aparte

/-- Claim C4: looking up a plugin kind that was never registered yields
`notFound`; looking up a key whose stored instance has a different concrete
type is the fatal downcast fault, never a silent wrong-typed return. -/
theorem get_plugin_spec (st : State) (tid : Nat) :
    (mapGet st.plugins tid = none → st.get_plugin tid = .notFound) ∧
    (∀ p, mapGet st.plugins tid = some p → p.typeId ≠ tid →
      st.get_plugin tid = .fatal) := by
  constructor
  · intro h
    simp [State.get_plugin, h]
  · intro p h hne
    simp [State.get_plugin, h, hne]

/-- Witness for C4: the empty registry misses kind 1, and a registry whose
slot for kind 1 holds an instance of concrete kind 2 faults. -/
theorem get_plugin_spec_witness :
    State.new.get_plugin 1 = .notFound ∧
    (State.new.add_plugin 1 ⟨2, 0, fun st _ => st⟩).1.get_plugin 1 = .fatal :=
  ⟨(get_plugin_spec State.new 1).1 rfl,
   (get_plugin_spec (State.new.add_plugin 1 ⟨2, 0, fun st _ => st⟩).1 1).2
     ⟨2, 0, fun st _ => st⟩ rfl (by decide)⟩

/-- Claim C5: registering the same kind twice silently replaces the first
instance — afterwards only the second is retrievable — and registration
reports success. -/
theorem add_plugin_last_write_wins (st : State) (tid : Nat)
    (p1 p2 : DynPlugin) (h : p2.typeId = tid) :
    ((st.add_plugin tid p1).1.add_plugin tid p2).1.get_plugin tid =
      .found p2 ∧
    ((st.add_plugin tid p1).1.add_plugin tid p2).2 = .ok () := by
  constructor
  · simp [State.add_plugin, State.get_plugin, pluginInsert, mapGet, h]
  · rfl

/-- Witness for C5 at two concrete instances of kind 1. -/
theorem add_plugin_last_write_wins_witness :
    ((State.new.add_plugin 1 ⟨1, 10, fun st _ => st⟩).1.add_plugin 1
        ⟨1, 20, fun st _ => st + 1⟩).1.get_plugin 1 =
      .found ⟨1, 20, fun st _ => st + 1⟩ ∧
    ((State.new.add_plugin 1 ⟨1, 10, fun st _ => st⟩).1.add_plugin 1
        ⟨1, 20, fun st _ => st + 1⟩).2 = .ok () :=
  add_plugin_last_write_wins State.new 1 ⟨1, 10, fun st _ => st⟩
    ⟨1, 20, fun st _ => st + 1⟩ rfl

/-- Claim C6: dispatching a command whose name has no registration fails
with the unit error and no handler runs; dispatching a registered name
returns exactly that handler's result on the command (exact-match lookup,
one invocation). -/
theorem parse_command_spec (st : State) (c : Command) :
    (mapGet st.commands c.name = none → st.parse_command c = .error ()) ∧
    (∀ f, mapGet st.commands c.name = some f → st.parse_command c = f c) := by
  constructor
  · intro h
    simp [State.parse_command, h]
  · intro f h
    simp [State.parse_command, h]

/-- Witness for C6: an empty dispatch table rejects `unknown`, and a table
with one registration for `x` runs that handler. -/
theorem parse_command_spec_witness :
    State.new.parse_command ⟨"unknown", []⟩ = .error () ∧
    (State.new.add_command "x" (fun _ => .ok ())).parse_command ⟨"x", []⟩ =
      .ok () :=
  ⟨(parse_command_spec State.new ⟨"unknown", []⟩).1 rfl,
   (parse_command_spec (State.new.add_command "x" (fun _ => .ok ()))
     ⟨"x", []⟩).2 (fun _ => .ok ()) rfl⟩

/-- The pointer stays set along any sequence of `add_connection` calls. -/
theorem runAdds_current_isSome (ops : List (FullJid × Sink)) :
    ∀ st : State, st.current_connection.isSome = true →
      ((ops.foldl (fun s op => s.add_connection op.1 op.2) st).current_connection).isSome = true := by
  induction ops with
  | nil => exact fun st h => h
  | cons op rest ih =>
      intro st _
      exact ih (st.add_connection op.1 op.2) rfl

/-- A state whose pointer is set never reports "no current connection". -/
theorem currentConn_ne_none_of_isSome (st : State)
    (h : st.current_connection.isSome = true) : st.currentConn ≠ some none := by
  unfold State.currentConn
  rcases hc : st.current_connection with _ | cur
  · rw [hc] at h
    exact absurd h (by simp)
  · rcases hg : mapGet st.connections cur with _ | conn
    · simp [hg]
    · simp [hg]

/-- Claim C7: adding a connection always repoints the current-connection
pointer at the newly added account (so after adding `c1` then `c2` it
reports `c2`), and it reports no current connection exactly when no
connection was ever added. -/
theorem add_connection_current (st : State) (a1 a2 : FullJid) (s1 s2 : Sink)
    (ops : List (FullJid × Sink)) :
    (st.add_connection a1 s1).currentConn = some (some a1) ∧
    ((st.add_connection a1 s1).add_connection a2 s2).currentConn =
      some (some a2) ∧
    ((ops.foldl (fun s op => s.add_connection op.1 op.2) State.new).currentConn
        = some none ↔ ops = []) := by
  refine ⟨?_, ?_, ?_, ?_⟩
  · simp [State.add_connection, State.currentConn, mapInsert, mapGet]
  · simp [State.add_connection, State.currentConn, mapInsert, mapGet]
  · intro h
    rcases ops with _ | ⟨op, rest⟩
    · rfl
    · exfalso
      refine currentConn_ne_none_of_isSome _ ?_ h
      exact runAdds_current_isSome rest (State.new.add_connection op.1 op.2) rfl
  · intro h
    rw [h]
    rfl

/-- `broadcast` maps each stored plugin through one `on_event` call. -/
theorem broadcast_eq_map (l : List (Nat × DynPlugin)) (e : Event) :
    broadcast l e = l.map (fun kv => (kv.1, kv.2.handle e)) := by
  induction l with
  | nil => rfl
  | cons kv rest ih => simp [broadcast, ih]

/-- A UUID always renders as the 36-character hyphenated form. -/
theorem uuid_str_length (u : Uuid) : (Uuid.str u).length = 36 := by
  simp [Uuid.str, hexPair, String.length]

/-- Claim C8: broadcasting an event applies every registered plugin's
`on_event` handler exactly once to that event (and touches nothing else),
and `log` synthesizes a log message whose body is the given text and whose
freshly generated identifier is non-empty, broadcasting it through the same
path. -/
theorem event_broadcast_log (st : State) (e : Event) (r : Uuid)
    (t : Timestamp) (msg : String) :
    (st.event e).plugins = st.plugins.map (fun kv => (kv.1, kv.2.handle e)) ∧
    (st.event e).commands = st.commands ∧
    (st.event e).connections = st.connections ∧
    (st.event e).current_connection = st.current_connection ∧
    st.log r t msg = st.event (.Message (Message.mkLog r t msg)) ∧
    (Message.mkLog r t msg).body = msg ∧
    (Message.mkLog r t msg).idOf ≠ "" := by
  refine ⟨broadcast_eq_map st.plugins e, rfl, rfl, rfl, rfl, rfl, ?_⟩
  intro h
  have hl := congrArg String.length h
  rw [show (Message.mkLog r t msg).idOf = (Uuid.new_v4 r).str from rfl,
    uuid_str_length] at hl
  exact absurd hl (by decide)

/-- Claim C9: with at least one connection present, `send` always returns
(no failure is propagated to the caller); a closed channel yields the
unchanged state plus one warning line — logged, swallowed, nothing queued,
no retry — and an open channel enqueues the element with no warning. -/
theorem send_never_propagates (st : State) (el : Element) (key : String)
    (c : Connection) (rest : List (String × Connection))
    (h : st.connections = (key, c) :: rest) :
    (st.send el).isSome = true ∧
    (c.sink.closed = true →
      st.send el = some (st, ["Cannot send packet: channel closed"])) ∧
    (c.sink.closed = false →
      st.send el = some ({ st with connections :=
          (key, { c with sink := { c.sink with
              queued := c.sink.queued ++ [el] } }) :: rest }, [])) := by
  refine ⟨?_, ?_, ?_⟩
  · simp [State.send, h]
  · intro hcl
    rcases st with ⟨cs, ps, conns, cur⟩
    rcases c with ⟨⟨closed, q⟩, acc⟩
    simp only at h
    subst h
    simp at hcl
    subst hcl
    rfl
  · intro hcl
    simp [State.send, h, Sink.start_send, hcl]

/-- Witness for C9: one connection over a closed channel swallows the
failure; the same connection over an open channel enqueues the element. -/
theorem send_never_propagates_witness :
    (State.new.add_connection ⟨"a@b/c"⟩ ⟨true, []⟩).send
        (XmppParsersMessage.new none) =
      some (State.new.add_connection ⟨"a@b/c"⟩ ⟨true, []⟩,
        ["Cannot send packet: channel closed"]) ∧
    (State.new.add_connection ⟨"a@b/c"⟩ ⟨false, []⟩).send
        (XmppParsersMessage.new none) =
      some ({ State.new.add_connection ⟨"a@b/c"⟩ ⟨false, []⟩ with
          connections := [("a@b/c", ⟨⟨false, [XmppParsersMessage.new none]⟩,
            ⟨"a@b/c"⟩⟩)] }, []) :=
  ⟨(send_never_propagates (State.new.add_connection ⟨"a@b/c"⟩ ⟨true, []⟩)
      (XmppParsersMessage.new none) "a@b/c" ⟨⟨true, []⟩, ⟨"a@b/c"⟩⟩ [] rfl).2.1
      rfl,
   (send_never_propagates (State.new.add_connection ⟨"a@b/c"⟩ ⟨false, []⟩)
      (XmppParsersMessage.new none) "a@b/c" ⟨⟨false, []⟩, ⟨"a@b/c"⟩⟩ [] rfl).2.2
      rfl⟩

/-- Claim C10: with an empty connection registry, `send` is the fatal
`unwrap` fault — not a no-op and not a logged, swallowed failure. -/
theorem send_empty_registry_fatal (st : State) (el : Element)
    (h : st.connections = []) : st.send el = none := by
  simp [State.send, h]

/-- Witness for C10: sending on a freshly created orchestrator faults. -/
theorem send_empty_registry_fatal_witness :
    State.new.send (XmppParsersMessage.new none) = none :=
  send_empty_registry_fatal State.new (XmppParsersMessage.new none) rfl

end Aparte
